import Mathlib

/-!
Shallow embedding of the kstudio frontend (ds_studio_llama/frontend):
the API client (`app/services/api.ts`), the root `Home` controller
(`app/page.tsx`) and the agent-creation form
(`app/components/AgentCreationForm.tsx`).

TypeScript records become Lean structures; optional fields become
`Option`; the dynamic `configuration` record becomes an association
list where a later entry overrides an earlier one (JS spread
semantics); the network is a parameter: each API function takes the
server response as an explicit argument and returns the computed
result together with the request body it would post (or `none` when
it fails before any request).
-/

/-- JS `a || b` on an optional string: `undefined` and `""` are falsy. -/
def jsOrStr (s : Option String) (d : String) : String :=
  match s with
  | none => d
  | some s => if s = "" then d else s

/-- JS `!s` on an optional string: truthy iff present and nonempty. -/
def jsFalsyStr (s : Option String) : Bool :=
  match s with
  | none => true
  | some s => s == ""

/-- JS `String.prototype.trim()`: strip leading and trailing
whitespace. -/
def jsTrim (s : String) : String :=
  String.mk (((s.data.dropWhile Char.isWhitespace).reverse.dropWhile
    Char.isWhitespace).reverse)

/-- JS `String.prototype.toLowerCase()` on the characters of the
string. -/
def jsToLowerCase (s : String) : String :=
  String.mk (s.data.map Char.toLower)

/-- JS `Array.prototype.join(sep)`. -/
def arrayJoin (sep : String) : List String → String
  | [] => ""
  | [a] => a
  | a :: b :: rest => a ++ sep ++ arrayJoin sep (b :: rest)

/-- A value stored in the dynamic `configuration` record of an agent:
either a string (e.g. a prompt template) or a list of strings
(e.g. the selected tool names). -/
inductive ConfigVal where
  | str (s : String)
  | strList (l : List String)
deriving DecidableEq, Repr

/-- A dynamic `Record<string, any>` configuration, as an association
list; in a JS spread a later property wins, so lookup takes the last
binding for a key. -/
abbrev Config : Type := List (String × ConfigVal)

/-- Lookup in a configuration record: the last binding wins,
matching JS object-spread override semantics. -/
def Config.get (c : Config) (k : String) : Option ConfigVal :=
  (List.reverse c).lookup k

/-- `Agent` from `api.ts`; `type` is kept as a string, as in the
wire format (`conversational | rag | tool_calling | coding`). -/
structure Agent where
  id : Int
  name : String
  type : String
  status : String
  configuration : Config := ∅
deriving DecidableEq, Repr

/-- `Tool` from `api.ts`. -/
structure Tool where
  name : String
  description : String
  created_by : String
  created_at : String
  code : Option String := none
  is_sample : Option Bool := none
deriving DecidableEq, Repr

/-- `Message` from `types/index.ts`. -/
structure Message where
  role : String
  content : String
  timestamp : String
  language : Option String := none
  code : Option (List String) := none
  error : Option Bool := none
deriving DecidableEq, Repr

/-- The metadata object of a query/interact response body
(the fields the `Home` component reads). -/
structure Metadata where
  language : Option String := none
  formatted_code : Option (List String) := none
deriving DecidableEq, Repr

/-- `AgentInteractionResponse` from `api.ts`. -/
structure AgentInteractionResponse where
  response : String
  message : String
  created_at : String
  metadata : Option Metadata := none
deriving DecidableEq, Repr

/-- The body of a `/agents/{id}/query` or `/interact` response:
`response`, optional `metadata`, and a possible server-side
`created_at` field that the client code never reads. -/
structure ServerInteraction where
  response : String
  metadata : Option Metadata := none
  created_at : Option String := none
deriving DecidableEq, Repr

/-- A server HTTP response as the client observes it: either `ok`
with a parsed JSON body, or a non-2xx response with an optional
`detail` field. -/
inductive ServerResp (α : Type) where
  | ok (data : α)
  | fail (detail : Option String)
deriving DecidableEq, Repr

/-- `throw new Error(data.detail || generic)` for a failed response. -/
def ServerResp.failMsg (detail : Option String) (generic : String) : String :=
  jsOrStr detail generic

/-! ## API client (`app/services/api.ts`) -/

/-- The two fixed sample-tool names hard-coded in `listTools`/`getTool`. -/
def sampleNames : List String := ["multiply", "add"]

/-- The post-processing both `listTools` and `getTool` apply:
`is_sample` becomes `is_sample OR name ∈ {multiply, add}` (the braces here are set notation). -/
def markSample (t : Tool) : Tool :=
  { t with is_sample := some (t.is_sample.getD false || sampleNames.contains t.name) }

/-- `listTools()` (api.ts:58-76): on success, map `markSample` over the
returned list; on failure, reject with the `detail` field or the generic message. -/
def listTools (r : ServerResp (List Tool)) : Except String (List Tool) :=
  match r with
  | .ok data => .ok (data.map markSample)
  | .fail d => .error (ServerResp.failMsg d "Failed to list tools")

/-- `getTool(name)` (api.ts:78-96). -/
def getTool (r : ServerResp Tool) : Except String Tool :=
  match r with
  | .ok data => .ok (markSample data)
  | .fail d => .error (ServerResp.failMsg d "Failed to get tool")

/-- `CreateToolRequest` from `api.ts`. -/
structure CreateToolRequest where
  description : String
  code : Option String := none
  created_by : String
deriving DecidableEq, Repr

/-- `CreateToolFromCodeRequest` from `api.ts`. -/
structure CreateToolFromCodeRequest where
  name : String
  code : String
  created_by : String
deriving DecidableEq, Repr

/-- `createTool(request)` (api.ts:98-122): posts the request and
returns `{...data, is_sample: false}` on success. -/
def createTool (_request : CreateToolRequest) (r : ServerResp Tool) :
    Except String Tool :=
  match r with
  | .ok data => .ok { data with is_sample := some false }
  | .fail d => .error (ServerResp.failMsg d "Failed to create tool")

/-- `createToolFromCode(request)` (api.ts:124-148): posts the request
and returns `{...data, is_sample: false}` on success. -/
def createToolFromCode (_request : CreateToolFromCodeRequest) (r : ServerResp Tool) :
    Except String Tool :=
  match r with
  | .ok data => .ok { data with is_sample := some false }
  | .fail d => .error (ServerResp.failMsg d "Failed to create tool from code")

/-- `Partial<Agent>` as `createAgent` receives it. -/
structure PartialAgent where
  name : Option String := none
  type : Option String := none
  status : Option String := none
  configuration : Option Config := none
deriving DecidableEq, Repr

/-- The JSON body `createAgent` posts to `POST /agents/`. -/
structure AgentPost where
  name : String
  type : String
  status : String
  configuration : Config
deriving DecidableEq, Repr

/-- `createAgent(agent)` (api.ts:213-250): requires `name` and `type`
(else rejects locally, posting nothing); defaults `status` to
`active` and `configuration` to the empty mapping; posts JSON; on success returns
the server agent with its `type` lowercased. The second component is
the posted body (`none` when no request was issued). -/
def createAgent (agent : PartialAgent) (r : ServerResp Agent) :
    Except String Agent × Option AgentPost :=
  if jsFalsyStr agent.name || jsFalsyStr agent.type then
    (.error "Agent name and type are required", none)
  else
    let agentData : AgentPost :=
      { name := agent.name.getD ""
        type := agent.type.getD ""
        status := jsOrStr agent.status "active"
        configuration := agent.configuration.getD ∅ }
    match r with
    | .ok data =>
        (.ok { data with type := jsToLowerCase data.type }, some agentData)
    | .fail d =>
        (.error (ServerResp.failMsg d "Failed to create agent"), some agentData)

/-- The multipart form body of a query/interact request: ordered
(field, value) pairs. -/
abbrev FormBody : Type := List (String × String)

/-- `queryAgent(agentId, query, context?)` (api.ts:275-312): posts a
form with field `query` followed by each context entry stringified;
on success returns `{response: data.response, message: query,
created_at: <client clock at receipt>, metadata: data.metadata}` —
the `created_at` field of the body, if any, is never read. `now` is the
client clock value at receipt time. -/
def queryAgent (_agentId : Int) (query : String)
    (context : Option (List (String × String))) (now : String)
    (r : ServerResp ServerInteraction) :
    Except String AgentInteractionResponse × FormBody :=
  let form : FormBody := ("query", query) :: context.getD []
  match r with
  | .ok data =>
      (.ok { response := data.response
             message := query
             created_at := now
             metadata := data.metadata }, form)
  | .fail d => (.error (ServerResp.failMsg d "Failed to query agent"), form)

/-- `interactWithAgent(agentId, message)` (api.ts:333-359): same
normalization as `queryAgent`, but the form carries a single
`message` field. -/
def interactWithAgent (_agentId : Int) (message : String) (now : String)
    (r : ServerResp ServerInteraction) :
    Except String AgentInteractionResponse × FormBody :=
  let form : FormBody := [("message", message)]
  match r with
  | .ok data =>
      (.ok { response := data.response
             message := message
             created_at := now
             metadata := data.metadata }, form)
  | .fail d => (.error (ServerResp.failMsg d "Failed to interact with agent"), form)

/-! ## Root controller state (`app/page.tsx`, `Home`) -/

/-- The `newAgent` draft in the `Home` component. -/
structure NewAgentDraft where
  name : String
  type : String
  configuration : Config
deriving DecidableEq, Repr

/-- `SelectedTool` from `types/index.ts`. -/
structure SelectedTool where
  name : String
  description : String
deriving DecidableEq, Repr

/-- The `useState` cells of the `Home` component (page.tsx:13-46),
gathered into one record. -/
structure HomeState where
  agents : List Agent
  selectedAgent : Option Agent
  selectedType : String
  isCreating : Bool
  isLoading : Bool
  error : Option String
  newAgent : NewAgentDraft
  selectedTools : List SelectedTool
  showToolManager : Bool
  message : String
  messages : List Message
  selectedLanguage : String
  codingMode : String
  isProcessingDocument : Bool
  hasDocument : Bool
  currentDocument : Option String
deriving DecidableEq, Repr

/-- The initial state of the `Home` component (page.tsx:13-46). -/
def initialHomeState : HomeState :=
  { agents := []
    selectedAgent := none
    selectedType := "conversational"
    isCreating := false
    isLoading := false
    error := none
    newAgent := { name := "", type := "conversational", configuration := ∅ }
    selectedTools := []
    showToolManager := false
    message := ""
    messages := []
    selectedLanguage := "python"
    codingMode := "generate"
    isProcessingDocument := false
    hasDocument := false
    currentDocument := none }

/-- The per-message history line (page.tsx:103-105): the role rendered
as `User` or `Assistant`, a colon and a space, then the content. -/
def formatMsg (m : Message) : String :=
  (if m.role == "user" then "User" else "Assistant") ++ ": " ++ m.content

/-- `messages.slice(-5)`: the last five messages (all of them when
there are fewer than five). -/
def lastFive (l : List Message) : List Message :=
  l.drop (l.length - 5)

/-- The string `handleMessageSend` sends to `queryAgent`
(page.tsx:102-110): the last five prior messages formatted and
joined by newlines; if that history string is nonempty (JS truthiness)
the new message is wrapped in the
`"Chat history:\n...\n\nNew message:\n..."` template, else it is sent
bare. -/
def messageWithHistory (messages : List Message) (message : String) : String :=
  let lastFiveMessages := arrayJoin "\n" ((lastFive messages).map formatMsg)
  if lastFiveMessages ≠ "" then
    "Chat history:\n" ++ lastFiveMessages ++ "\n\nNew message:\n" ++ message
  else
    message

/-- What `handleMessageSend` hands to `api.queryAgent`
(page.tsx:112-121): the agent id, the query string, and the coding
context when the agent is a coding agent. -/
structure SentQuery where
  agentId : Int
  query : String
  context : Option (List (String × String))
deriving DecidableEq, Repr

/-- `handleMessageSend` (page.tsx:87-137). `now` is the client clock
(`new Date().toISOString()`) and `server` the outcome of the awaited
`api.queryAgent` call, already normalized (so `.created_at` is the
client receipt-time stamp). Returns the new state and the query that
was sent (`none` when the guard returned before any request). -/
def handleMessageSend (st : HomeState) (now : String)
    (server : Except String AgentInteractionResponse) :
    HomeState × Option SentQuery :=
  match st.selectedAgent with
  | none => (st, none)
  | some agent =>
    if jsTrim st.message == "" then (st, none)
    else
      let userMessage : Message :=
        { role := "user"
          content := st.message
          timestamp := now
          language := if agent.type == "coding" then some st.selectedLanguage else none
          error := some (agent.type == "coding" && st.codingMode == "troubleshoot") }
      let st1 := { st with isLoading := true
                           messages := st.messages ++ [userMessage]
                           message := "" }
      let sent : SentQuery :=
        { agentId := agent.id
          query := messageWithHistory st.messages st.message
          context :=
            if agent.type == "coding" then
              some [("language", st.selectedLanguage), ("mode", st.codingMode)]
            else none }
      match server with
      | .ok resp =>
          let agentMessage : Message :=
            { role := "assistant"
              content := resp.response
              timestamp := resp.created_at
              language := some (jsOrStr (resp.metadata.bind Metadata.language) st.selectedLanguage)
              code := resp.metadata.bind Metadata.formatted_code }
          ({ st1 with messages := st1.messages ++ [agentMessage]
                      isLoading := false }, some sent)
      | .error _ =>
          ({ st1 with error := some "Failed to send message"
                      isLoading := false }, some sent)

/-- `setSelectedAgent(a)` followed by the effect on `selectedAgent`
(page.tsx:67-76): for a non-null agent, clear the document flags and
the message list, and reset the coding mode for coding agents. -/
def selectAgent (st : HomeState) (a : Agent) : HomeState :=
  let st1 := { st with selectedAgent := some a }
  { st1 with hasDocument := false
             currentDocument := none
             messages := []
             codingMode := if a.type == "coding" then "generate" else st1.codingMode }

/-! ## Agent creation flow (`Home` + `AgentCreationForm`) -/

/-- The default prompt template `handleTypeChange` installs for
conversational agents (AgentCreationForm.tsx:40-42). -/
def defaultPromptTemplate : String :=
  "You are a helpful AI assistant. Please respond to the following message:\n\n{input}"

/-- The prompt template `handleCreateAgent` generates for
tool-calling agents (page.tsx:179-183). -/
def toolPromptTemplate (tools : List SelectedTool) : String :=
  "You are an AI assistant with access to the following tools:\n" ++
  arrayJoin "\n" (tools.map (fun t => "- " ++ t.name ++ ": " ++ t.description)) ++
  "\n\nPlease help with the following request:\n{input}"

/-- The sub-state of `Home` that the creation flow touches. -/
structure CreationState where
  newAgent : NewAgentDraft
  selectedTools : List SelectedTool
  showToolManager : Bool
deriving DecidableEq, Repr

/-- `handleStartCreating` (page.tsx:203-206): reset the draft to an
empty name, the sidebar-selected type and an empty configuration;
`selectedTools` and `showToolManager` keep their current values. -/
def handleStartCreating (selectedType : String)
    (tools : List SelectedTool) (showTM : Bool) : CreationState :=
  { newAgent := { name := "", type := selectedType, configuration := ∅ }
    selectedTools := tools
    showToolManager := showTM }

/-- One user interaction with the open creation form. -/
inductive FormEvent where
  /-- Typing in the name input (AgentCreationForm.tsx:93). -/
  | setName (n : String)
  /-- Choosing a type in the form selector, i.e. `handleTypeChange`
  (AgentCreationForm.tsx:38-56). -/
  | changeType (t : String)
  /-- Editing the conversational prompt-template textarea, i.e. a
  configuration override (AgentCreationForm.tsx:129-135). -/
  | editPromptTemplate (s : String)
  /-- `onToolSelect` from the ToolManager (AgentCreationForm.tsx:73-78). -/
  | selectTool (t : SelectedTool)
  /-- `removeSelectedTool` (AgentCreationForm.tsx:34-36). -/
  | removeTool (n : String)
  /-- Picking a type in the sidebar while the form is open: the
  `selectedType` effect (page.tsx:79-85) overwrites the draft type
  and clears its configuration. -/
  | sidebarTypeSelect (t : String)
deriving DecidableEq, Repr

/-- The state transition of one creation-form event. -/
def formStep (cs : CreationState) : FormEvent → CreationState
  | .setName n =>
      { cs with newAgent := { cs.newAgent with name := n } }
  | .changeType t =>
      let defaultConfig : Config :=
        if t == "conversational" then
          [("prompt_template", .str defaultPromptTemplate)]
        else ∅
      { newAgent := { cs.newAgent with type := t, configuration := defaultConfig }
        selectedTools := if t == "tool_calling" then cs.selectedTools else []
        showToolManager := t == "tool_calling" }
  | .editPromptTemplate s =>
      { cs with newAgent :=
          { cs.newAgent with configuration :=
              cs.newAgent.configuration ++
                ([("prompt_template", ConfigVal.str s)] : Config) } }
  | .selectTool t =>
      if cs.selectedTools.any (fun s => s.name == t.name) then cs
      else { cs with selectedTools := cs.selectedTools ++ [t] }
  | .removeTool n =>
      { cs with selectedTools := cs.selectedTools.filter (fun t => t.name ≠ n) }
  | .sidebarTypeSelect t =>
      { cs with newAgent := { cs.newAgent with type := t, configuration := ∅ } }

/-- Run a sequence of creation-form events. -/
def runForm (cs : CreationState) (es : List FormEvent) : CreationState :=
  es.foldl formStep cs

/-- The `agentData` value `handleCreateAgent` builds and passes to
`api.createAgent` (page.tsx:173-186): the draft, with the selected
tool names and the generated tool prompt template merged into the
configuration when the draft is a tool-calling agent. -/
def submittedAgent (cs : CreationState) : NewAgentDraft :=
  { name := cs.newAgent.name
    type := cs.newAgent.type
    configuration :=
      cs.newAgent.configuration ++
        ((if cs.newAgent.type == "tool_calling" then
          [("tools", ConfigVal.strList (cs.selectedTools.map SelectedTool.name)),
           ("prompt_template", ConfigVal.str (toolPromptTemplate cs.selectedTools))]
         else ∅) : Config) }

/-- `handleCreateAgent` (page.tsx:160-201): validate the tool
selection, build `agentData`, call `api.createAgent` and on success
append the new agent, select it and reset the creation state. The
second component is the JSON body posted to `POST /agents/`
(`none` when validation failed locally or `createAgent` rejected
before any request). -/
def handleCreateAgent (st : HomeState) (server : ServerResp Agent) :
    HomeState × Option AgentPost :=
  let st1 := { st with isLoading := true, error := none }
  if st.newAgent.type == "tool_calling" && st.selectedTools.isEmpty then
    ({ st1 with error := some "Please select at least one tool for the Tool Agent"
                isLoading := false }, none)
  else
    let agentData := submittedAgent
      { newAgent := st.newAgent
        selectedTools := st.selectedTools
        showToolManager := st.showToolManager }
    match createAgent
        { name := some agentData.name
          type := some agentData.type
          configuration := some agentData.configuration } server with
    | (.ok agent, post) =>
        ({ st1 with agents := st.agents ++ [agent]
                    isCreating := false
                    selectedAgent := some agent
                    newAgent := { name := "", type := st.selectedType, configuration := ∅ }
                    selectedTools := []
                    showToolManager := false
                    isLoading := false }, post)
    | (.error _, post) =>
        ({ st1 with error := some "Failed to create agent"
                    isLoading := false }, post)

/-- Events that leave the draft `type` and `configuration` alone:
typing the name and selecting or removing tools. -/
def FormEvent.touchesTypeOrConfig : FormEvent → Bool
  | .changeType _ => true
  | .editPromptTemplate _ => true
  | .sidebarTypeSelect _ => true
  | .setName _ => false
  | .selectTool _ => false
  | .removeTool _ => false

/-! ## Helper lemmas -/

lemma str_len_zero (s : String) : s.length = 0 ↔ s = "" := by
  constructor
  · intro h
    cases s with
    | mk data =>
      cases data with
      | nil => rfl
      | cons a l => simp [String.length, List.length] at h
  · intro h
    subst h
    rfl

lemma append_ne_empty_left (s t : String) (h : s ≠ "") : s ++ t ≠ "" := by
  intro he
  apply h
  have hl := congrArg String.length he
  rw [String.length_append] at hl
  have h0 : String.length "" = 0 := rfl
  rw [h0] at hl
  exact (str_len_zero s).mp (by omega)

lemma formatMsg_ne_empty (m : Message) : formatMsg m ≠ "" := by
  unfold formatMsg
  apply append_ne_empty_left
  apply append_ne_empty_left
  cases h : m.role == "user" <;> simp [h]

lemma arrayJoin_cons_ne_empty (sep : String) (a : String) (rest : List String)
    (ha : a ≠ "") : arrayJoin sep (a :: rest) ≠ "" := by
  cases rest with
  | nil => simpa [arrayJoin] using ha
  | cons b t =>
    show a ++ sep ++ arrayJoin sep (b :: t) ≠ ""
    apply append_ne_empty_left
    apply append_ne_empty_left
    exact ha

lemma lastFive_of_split (pre l5 : List Message) (hlen : l5.length = 5) :
    lastFive (pre ++ l5) = l5 := by
  unfold lastFive
  rw [List.length_append, hlen]
  have h5 : pre.length + 5 - 5 = pre.length := by omega
  rw [h5]
  exact List.drop_left pre l5

lemma messageWithHistory_of_split (pre l5 : List Message) (msg : String)
    (hlen : l5.length = 5) :
    messageWithHistory (pre ++ l5) msg =
      "Chat history:\n" ++ arrayJoin "\n" (l5.map formatMsg) ++
        "\n\nNew message:\n" ++ msg := by
  unfold messageWithHistory
  rw [lastFive_of_split pre l5 hlen]
  have hne : arrayJoin "\n" (l5.map formatMsg) ≠ "" := by
    cases l5 with
    | nil => simp at hlen
    | cons a t =>
      rw [List.map_cons]
      exact arrayJoin_cons_ne_empty _ _ _ (formatMsg_ne_empty a)
  simp [hne]

/-! ## Claim theorems -/

/-- C10: when no agent is selected, or the draft message trims to the
empty string, `handleMessageSend` is a complete no-op: the state is
returned unchanged (no message appended, no flag touched) and no
query is sent. -/
theorem handleMessageSend_guard_noop (st : HomeState) (now : String)
    (server : Except String AgentInteractionResponse)
    (h : st.selectedAgent = none ∨ jsTrim st.message = "") :
    handleMessageSend st now server = (st, none) := by
  unfold handleMessageSend
  rcases h with h | h
  · rw [h]
  · cases hsel : st.selectedAgent with
    | none => rfl
    | some a => simp [h]

/-- Witness for C10: in the initial state no agent is selected, and
sending there changes nothing; likewise for a whitespace-only draft
message with an agent selected. -/
theorem handleMessageSend_guard_noop_witness :
    handleMessageSend initialHomeState "2024-01-01" (.error "boom") =
      (initialHomeState, none)
    ∧ handleMessageSend
        { initialHomeState with
            selectedAgent := some { id := 1, name := "a", type := "conversational", status := "active" }
            message := "   " }
        "2024-01-01" (.error "boom") =
      ({ initialHomeState with
          selectedAgent := some { id := 1, name := "a", type := "conversational", status := "active" }
          message := "   " }, none) :=
  ⟨handleMessageSend_guard_noop initialHomeState "2024-01-01" (.error "boom")
      (Or.inl rfl),
   handleMessageSend_guard_noop
      { initialHomeState with
          selectedAgent := some { id := 1, name := "a", type := "conversational", status := "active" }
          message := "   " }
      "2024-01-01" (.error "boom") (Or.inr (by decide))⟩

/-- C2: when a message is sent (an agent is selected and the draft
message is non-blank), the string handed to `queryAgent` is, whenever
the pre-send list splits as `pre ++ l5` with `l5` of length five (so
`l5` is the last five messages in original order), exactly
`"Chat history:\n"`, the five messages formatted as `User:`/
`Assistant:` lines joined by newlines, `"\n\nNew message:\n"` and the
new message; and when the pre-send list is empty, the bare new
message. -/
theorem handleMessageSend_history_spec (st : HomeState) (now : String)
    (server : Except String AgentInteractionResponse) (a : Agent)
    (hsel : st.selectedAgent = some a) (hmsg : jsTrim st.message ≠ "") :
    (∀ pre l5, st.messages = pre ++ l5 → l5.length = 5 →
      ((handleMessageSend st now server).2).map SentQuery.query =
        some ("Chat history:\n" ++ arrayJoin "\n" (l5.map formatMsg) ++
              "\n\nNew message:\n" ++ st.message))
    ∧ (st.messages = [] →
      ((handleMessageSend st now server).2).map SentQuery.query =
        some st.message) := by
  constructor
  · intro pre l5 hsplit hlen
    cases server <;>
      simp [handleMessageSend, hsel, hmsg, hsplit,
            messageWithHistory_of_split pre l5 st.message hlen]
  · intro hempty
    cases server <;>
      simp [handleMessageSend, hsel, hmsg, hempty, messageWithHistory,
            lastFive, arrayJoin]

/-- Witness for C2 at a concrete state with six prior messages: the
query sent is the history template around the last five, in order. -/
theorem handleMessageSend_history_spec_witness :
    ((handleMessageSend
        { initialHomeState with
            selectedAgent := some { id := 1, name := "a", type := "conversational", status := "active" }
            message := "hello"
            messages :=
              [ { role := "user", content := "m0", timestamp := "t0" },
                { role := "user", content := "m1", timestamp := "t1" },
                { role := "assistant", content := "m2", timestamp := "t2" },
                { role := "user", content := "m3", timestamp := "t3" },
                { role := "assistant", content := "m4", timestamp := "t4" },
                { role := "user", content := "m5", timestamp := "t5" } ] }
        "now" (.error "boom")).2).map SentQuery.query =
      some ("Chat history:\nUser: m1\nAssistant: m2\nUser: m3\nAssistant: m4\nUser: m5\n\nNew message:\nhello") := by
  have h := (handleMessageSend_history_spec
    { initialHomeState with
        selectedAgent := some { id := 1, name := "a", type := "conversational", status := "active" }
        message := "hello"
        messages :=
          [ { role := "user", content := "m0", timestamp := "t0" },
            { role := "user", content := "m1", timestamp := "t1" },
            { role := "assistant", content := "m2", timestamp := "t2" },
            { role := "user", content := "m3", timestamp := "t3" },
            { role := "assistant", content := "m4", timestamp := "t4" },
            { role := "user", content := "m5", timestamp := "t5" } ] }
    "now" (.error "boom")
    { id := 1, name := "a", type := "conversational", status := "active" }
    rfl (by decide)).1
    [ { role := "user", content := "m0", timestamp := "t0" } ]
    [ { role := "user", content := "m1", timestamp := "t1" },
      { role := "assistant", content := "m2", timestamp := "t2" },
      { role := "user", content := "m3", timestamp := "t3" },
      { role := "assistant", content := "m4", timestamp := "t4" },
      { role := "user", content := "m5", timestamp := "t5" } ]
    rfl rfl
  simpa [arrayJoin, formatMsg] using h

/-- C9: when the `queryAgent` call rejects, `handleMessageSend` sets
the error string to `Failed to send message` and the message list is
exactly the pre-send list plus the optimistically appended user
message — the failed send neither rolls that message back nor appends
an assistant message, so the user message is still last. -/
theorem handleMessageSend_failure_keeps_user_message (st : HomeState)
    (now e : String) (a : Agent)
    (hsel : st.selectedAgent = some a) (hmsg : jsTrim st.message ≠ "") :
    (handleMessageSend st now (.error e)).1.error =
      some "Failed to send message"
    ∧ (handleMessageSend st now (.error e)).1.messages =
        st.messages ++
          [{ role := "user"
             content := st.message
             timestamp := now
             language := if a.type == "coding" then some st.selectedLanguage else none
             error := some (a.type == "coding" && st.codingMode == "troubleshoot") }]
    ∧ (handleMessageSend st now (.error e)).1.messages.getLast? =
        some { role := "user"
               content := st.message
               timestamp := now
               language := if a.type == "coding" then some st.selectedLanguage else none
               error := some (a.type == "coding" && st.codingMode == "troubleshoot") } := by
  refine ⟨?_, ?_, ?_⟩ <;> simp [handleMessageSend, hsel, hmsg]

/-- Witness for C9 at a concrete state: after a failed send the error
banner is set and the appended user bubble is still the last message,
with no assistant message after it. -/
theorem handleMessageSend_failure_keeps_user_message_witness :
    (handleMessageSend
        { initialHomeState with
            selectedAgent := some { id := 1, name := "a", type := "conversational", status := "active" }
            message := "hi"
            messages := [{ role := "assistant", content := "m0", timestamp := "t0" }] }
        "now" (.error "boom")).1.error = some "Failed to send message"
    ∧ (handleMessageSend
        { initialHomeState with
            selectedAgent := some { id := 1, name := "a", type := "conversational", status := "active" }
            message := "hi"
            messages := [{ role := "assistant", content := "m0", timestamp := "t0" }] }
        "now" (.error "boom")).1.messages =
      [{ role := "assistant", content := "m0", timestamp := "t0" },
       { role := "user", content := "hi", timestamp := "now",
         language := none, error := some false }] := by
  have h := handleMessageSend_failure_keeps_user_message
    { initialHomeState with
        selectedAgent := some { id := 1, name := "a", type := "conversational", status := "active" }
        message := "hi"
        messages := [{ role := "assistant", content := "m0", timestamp := "t0" }] }
    "now" "boom"
    { id := 1, name := "a", type := "conversational", status := "active" }
    rfl (by decide)
  exact ⟨h.1, by simpa using h.2.1⟩

/-- C3: creating a tool-calling agent with no selected tool aborts
locally: the error is set to the specific message, nothing is posted,
and every other state cell — agent list, draft, tool selection —
keeps its value (the resulting state is the input state with only
`error` set and `isLoading` forced off). -/
theorem handleCreateAgent_tool_validation (st : HomeState)
    (server : ServerResp Agent)
    (htype : st.newAgent.type = "tool_calling")
    (htools : st.selectedTools = []) :
    handleCreateAgent st server =
      ({ st with error := some "Please select at least one tool for the Tool Agent"
                 isLoading := false }, none) := by
  unfold handleCreateAgent
  simp [htype, htools]

/-- Witness for C3: a concrete state with a tool-calling draft and no
selected tools, where the create handler only sets the error. -/
theorem handleCreateAgent_tool_validation_witness :
    handleCreateAgent
        { initialHomeState with
            newAgent := { name := "a", type := "tool_calling", configuration := ∅ } }
        (.ok { id := 9, name := "a", type := "tool_calling", status := "active" }) =
      ({ initialHomeState with
          newAgent := { name := "a", type := "tool_calling", configuration := ∅ }
          error := some "Please select at least one tool for the Tool Agent"
          isLoading := false }, none) :=
  handleCreateAgent_tool_validation
    { initialHomeState with
        newAgent := { name := "a", type := "tool_calling", configuration := ∅ } }
    (.ok { id := 9, name := "a", type := "tool_calling", status := "active" })
    rfl rfl

/-- C6: `createAgent` rejects with `Agent name and type are
required` and posts nothing whenever name or type is missing or
empty; otherwise the posted body carries the given name and type with
`status` defaulted to `active` when absent (the given status when
present and nonempty) and `configuration` defaulted to the empty
mapping when absent; and on a successful response the returned agent
is the server agent with its `type` lowercased. -/
theorem createAgent_contract (agent : PartialAgent) (r : ServerResp Agent) :
    ((agent.name = none ∨ agent.name = some "" ∨
      agent.type = none ∨ agent.type = some "") →
      createAgent agent r = (.error "Agent name and type are required", none))
    ∧ (∀ n t, agent.name = some n → n ≠ "" → agent.type = some t → t ≠ "" →
        (createAgent agent r).2 =
          some { name := n
                 type := t
                 status := jsOrStr agent.status "active"
                 configuration := agent.configuration.getD ∅ }
        ∧ (agent.status = none → jsOrStr agent.status "active" = "active")
        ∧ (∀ s, agent.status = some s → s ≠ "" →
            jsOrStr agent.status "active" = s)
        ∧ (agent.configuration = none →
            (agent.configuration.getD ∅ : Config) = ∅)
        ∧ (∀ data, r = .ok data →
            (createAgent agent r).1 =
              .ok { data with type := jsToLowerCase data.type })) := by
  constructor
  · intro h
    unfold createAgent
    rcases h with h | h | h | h <;> simp [h, jsFalsyStr]
  · intro n t hn hne ht hte
    refine ⟨?_, ?_, ?_, ?_, ?_⟩
    · cases r <;> simp [createAgent, jsFalsyStr, hn, ht, hne, hte]
    · intro hs
      simp [jsOrStr, hs]
    · intro s hs hse
      simp [jsOrStr, hs, hse]
    · intro hc
      simp [hc]
    · intro data hr
      subst hr
      simp [createAgent, jsFalsyStr, hn, ht, hne, hte]

/-- Witness for C6 at concrete inputs: a nameless partial agent is
rejected locally; one with name and type posts the defaulted body and
the returned agent type is lowercased. -/
theorem createAgent_contract_witness :
    (createAgent { type := some "rag" }
        (.ok { id := 1, name := "x", type := "RAG", status := "active" }) =
      (.error "Agent name and type are required", none))
    ∧ ((createAgent { name := some "x", type := some "rag" }
        (.ok { id := 1, name := "x", type := "RAG", status := "active" })).2 =
      some { name := "x", type := "rag", status := "active",
             configuration := ∅ })
    ∧ ((createAgent { name := some "x", type := some "rag" }
        (.ok { id := 1, name := "x", type := "RAG", status := "active" })).1 =
      .ok { id := 1, name := "x", type := "rag", status := "active" }) := by
  have h := createAgent_contract { name := some "x", type := some "rag" }
    (.ok { id := 1, name := "x", type := "RAG", status := "active" })
  have h0 := createAgent_contract { type := some "rag" }
    (.ok { id := 1, name := "x", type := "RAG", status := "active" })
  have h2 := h.2 "x" "rag" rfl (by decide) rfl (by decide)
  refine ⟨h0.1 (Or.inl rfl), ?_, ?_⟩
  · have := h2.1
    simpa [jsOrStr] using this
  · have h3 := h2.2.2.2.2 { id := 1, name := "x", type := "RAG", status := "active" } rfl
    have hl : jsToLowerCase "RAG" = "rag" := by decide
    simpa [hl] using h3

/-- C4: `listTools` returns the server tools mapped through the
sample marking, `getTool` applies the same marking to its single
tool, and the marking sets `is_sample` to true exactly when the
server flag was true or the name is `multiply` or `add` (false in
every other case), leaving every other field unchanged. -/
theorem listTools_sample_marking (ts : List Tool) (t : Tool) :
    listTools (.ok ts) = .ok (ts.map markSample)
    ∧ getTool (.ok t) = .ok (markSample t)
    ∧ ((markSample t).is_sample = some true ↔
        (t.is_sample = some true ∨ t.name = "multiply" ∨ t.name = "add"))
    ∧ ((markSample t).is_sample = some false ↔
        ¬(t.is_sample = some true ∨ t.name = "multiply" ∨ t.name = "add"))
    ∧ (markSample t).name = t.name
    ∧ (markSample t).description = t.description
    ∧ (markSample t).created_by = t.created_by
    ∧ (markSample t).created_at = t.created_at
    ∧ (markSample t).code = t.code := by
  refine ⟨rfl, rfl, ?_, ?_, rfl, rfl, rfl, rfl, rfl⟩ <;>
    cases h : t.is_sample with
    | none => simp [markSample, sampleNames, h]
    | some b => cases b <;> simp [markSample, sampleNames, h]

/-- Witness for C4: the tool named `add` with no server flag is
marked as a sample; an unrelated tool with no flag is not. -/
theorem listTools_sample_marking_witness :
    (markSample { name := "add", description := "d", created_by := "u",
                  created_at := "t" }).is_sample = some true
    ∧ (markSample { name := "other", description := "d", created_by := "u",
                    created_at := "t" }).is_sample = some false := by
  have h1 := (listTools_sample_marking []
    { name := "add", description := "d", created_by := "u",
      created_at := "t" }).2.2.1
  have h2 := (listTools_sample_marking []
    { name := "other", description := "d", created_by := "u",
      created_at := "t" }).2.2.2.1
  exact ⟨h1.mpr (Or.inr (Or.inr rfl)), h2.mpr (by simp)⟩

/-- C5: on any successful server response, `createTool` and
`createToolFromCode` return the server tool with `is_sample` forced
to false, whatever the response said and whatever the name is
(including `multiply` and `add`). -/
theorem createTool_forces_not_sample (req : CreateToolRequest)
    (req2 : CreateToolFromCodeRequest) (data : Tool) :
    createTool req (.ok data) = .ok { data with is_sample := some false }
    ∧ createToolFromCode req2 (.ok data) =
        .ok { data with is_sample := some false } :=
  ⟨rfl, rfl⟩

/-- C7: selecting any (non-null) agent clears the message list, the
document flag and the current document, makes the agent selected,
and resets the coding mode to `generate` when the new agent is a
coding agent. -/
theorem selectAgent_resets (st : HomeState) (a : Agent) :
    (selectAgent st a).messages = []
    ∧ (selectAgent st a).hasDocument = false
    ∧ (selectAgent st a).currentDocument = none
    ∧ (selectAgent st a).selectedAgent = some a
    ∧ (a.type = "coding" → (selectAgent st a).codingMode = "generate") := by
  refine ⟨rfl, rfl, rfl, rfl, ?_⟩
  intro h
  simp [selectAgent, h]

/-- Witness for C7: selecting a coding agent from a state with three
messages and a document clears them and resets the coding mode. -/
theorem selectAgent_resets_witness :
    (selectAgent
      { initialHomeState with
          messages :=
            [ { role := "user", content := "m1", timestamp := "t1" },
              { role := "assistant", content := "m2", timestamp := "t2" },
              { role := "user", content := "m3", timestamp := "t3" } ]
          hasDocument := true
          currentDocument := some "doc.pdf"
          codingMode := "troubleshoot" }
      { id := 2, name := "b", type := "coding", status := "active" }).messages = []
    ∧ (selectAgent
      { initialHomeState with
          messages :=
            [ { role := "user", content := "m1", timestamp := "t1" },
              { role := "assistant", content := "m2", timestamp := "t2" },
              { role := "user", content := "m3", timestamp := "t3" } ]
          hasDocument := true
          currentDocument := some "doc.pdf"
          codingMode := "troubleshoot" }
      { id := 2, name := "b", type := "coding", status := "active" }).hasDocument = false
    ∧ (selectAgent
      { initialHomeState with
          messages :=
            [ { role := "user", content := "m1", timestamp := "t1" },
              { role := "assistant", content := "m2", timestamp := "t2" },
              { role := "user", content := "m3", timestamp := "t3" } ]
          hasDocument := true
          currentDocument := some "doc.pdf"
          codingMode := "troubleshoot" }
      { id := 2, name := "b", type := "coding", status := "active" }).codingMode = "generate" := by
  have h := selectAgent_resets
    { initialHomeState with
        messages :=
          [ { role := "user", content := "m1", timestamp := "t1" },
            { role := "assistant", content := "m2", timestamp := "t2" },
            { role := "user", content := "m3", timestamp := "t3" } ]
        hasDocument := true
        currentDocument := some "doc.pdf"
        codingMode := "troubleshoot" }
    { id := 2, name := "b", type := "coding", status := "active" }
  exact ⟨h.1, h.2.1, h.2.2.2.2 rfl⟩

/-- C8: on a successful response, `queryAgent` returns the server
response text, echoes the original query as `message`, stamps
`created_at` with the client clock (never the server-sent
`created_at`), passes the metadata through, and posts a form whose
first field is `query`; `interactWithAgent` behaves identically with
its input message and a single `message` form field. -/
theorem queryAgent_normalization (id : Int) (q m now : String)
    (ctx : Option (List (String × String))) (data : ServerInteraction) :
    (queryAgent id q ctx now (.ok data)).1 =
      .ok { response := data.response, message := q, created_at := now,
            metadata := data.metadata }
    ∧ (queryAgent id q ctx now (.ok data)).2 = ("query", q) :: ctx.getD []
    ∧ (interactWithAgent id m now (.ok data)).1 =
      .ok { response := data.response, message := m, created_at := now,
            metadata := data.metadata }
    ∧ (interactWithAgent id m now (.ok data)).2 = [("message", m)] :=
  ⟨rfl, rfl, rfl, rfl⟩

lemma formStep_neutral (cs : CreationState) (e : FormEvent)
    (h : e.touchesTypeOrConfig = false) :
    (formStep cs e).newAgent.type = cs.newAgent.type
    ∧ (formStep cs e).newAgent.configuration = cs.newAgent.configuration := by
  cases e with
  | setName n => exact ⟨rfl, rfl⟩
  | selectTool t =>
      constructor <;>
        · simp only [formStep]
          split <;> rfl
  | removeTool n => exact ⟨rfl, rfl⟩
  | changeType t => simp [FormEvent.touchesTypeOrConfig] at h
  | editPromptTemplate s => simp [FormEvent.touchesTypeOrConfig] at h
  | sidebarTypeSelect t => simp [FormEvent.touchesTypeOrConfig] at h

lemma runForm_neutral (cs : CreationState) (es : List FormEvent)
    (h : ∀ e ∈ es, e.touchesTypeOrConfig = false) :
    (runForm cs es).newAgent.type = cs.newAgent.type
    ∧ (runForm cs es).newAgent.configuration = cs.newAgent.configuration := by
  induction es generalizing cs with
  | nil => exact ⟨rfl, rfl⟩
  | cons e es ih =>
    have he := h e (by simp)
    have hes : ∀ x ∈ es, x.touchesTypeOrConfig = false := by
      intro x hx
      exact h x (by simp [hx])
    have h1 := formStep_neutral cs e he
    have h2 := ih (formStep cs e) hes
    exact ⟨h2.1.trans h1.1, h2.2.trans h1.2⟩

/-- C1 counterexample: the creation flow in which the user opens the
form with the sidebar type at its initial value `conversational` and
never touches the type selector is reachable, has a conversational
draft with no configuration override, and yet submits a configuration
with no `prompt_template` key at all. -/
theorem conversational_default_template_missing :
    (runForm (handleStartCreating "conversational" [] false) []).newAgent.type
        = "conversational"
    ∧ (runForm (handleStartCreating "conversational" [] false) []).newAgent.configuration
        = ∅
    ∧ Config.get
        (submittedAgent (runForm (handleStartCreating "conversational" [] false) [])).configuration
        "prompt_template" = none :=
  ⟨rfl, rfl, rfl⟩

/-- C1 (amended): in every creation flow whose last type- or
configuration-affecting event is the change of the form selector to
`conversational` (with no later configuration override), the agent
submitted to `createAgent` carries the default prompt template under
`prompt_template`; the flow that never touches the selector instead
submits an empty configuration. -/
theorem conversational_default_template (cs0 : CreationState)
    (es : List FormEvent)
    (h : ∀ e ∈ es, e.touchesTypeOrConfig = false) :
    (runForm cs0 (FormEvent.changeType "conversational" :: es)).newAgent.type
        = "conversational"
    ∧ Config.get
        (submittedAgent (runForm cs0 (FormEvent.changeType "conversational" :: es))).configuration
        "prompt_template" = some (ConfigVal.str defaultPromptTemplate) := by
  have hstep : runForm cs0 (FormEvent.changeType "conversational" :: es) =
      runForm (formStep cs0 (.changeType "conversational")) es := rfl
  have hty : (formStep cs0 (.changeType "conversational")).newAgent.type =
      "conversational" := by simp [formStep]
  have hcf : (formStep cs0 (.changeType "conversational")).newAgent.configuration =
      [("prompt_template", ConfigVal.str defaultPromptTemplate)] := by
    simp [formStep]
  have hr := runForm_neutral (formStep cs0 (.changeType "conversational")) es h
  rw [hstep]
  refine ⟨hr.1.trans hty, ?_⟩
  unfold submittedAgent
  rw [hr.1, hr.2, hty, hcf]
  simp [Config.get, List.lookup]

/-- Witness for the amended C1: starting the form, switching the type
selector to conversational and then only typing a name yields a
submission whose configuration holds the default prompt template. -/
theorem conversational_default_template_witness :
    Config.get
      (submittedAgent (runForm (handleStartCreating "conversational" [] false)
        [FormEvent.changeType "conversational", FormEvent.setName "My Agent"])).configuration
      "prompt_template" = some (ConfigVal.str defaultPromptTemplate) :=
  (conversational_default_template
    (handleStartCreating "conversational" [] false)
    [FormEvent.setName "My Agent"]
    (by intro e he; simp at he; subst he; rfl)).2
